import Mathlib

set_option maxRecDepth 8192

namespace PlanLytics

/-! Shallow embedding of the PlanLytics upload/analyze browser client
(backend/static/app.js, defensive variant with fetchJSON) and of the
MiniChat React component.  JSON values and the browser's JSON.parse are
modelled explicitly so that response-body parsing is executable. -/

/-- JSON values as produced by the browser's JSON.parse.  A number literal
with integer digits, fraction digits and exponent denotes the exact decimal
value m * 10 ^ e; it is stored as that mantissa/exponent pair, which keeps
all arithmetic on naturals and integers. -/
inductive JsonVal : Type where
  | str (s : String)
  | num (m : Int) (e : Int)
  | bool (b : Bool)
  | null
  | obj (fields : List (String × JsonVal))
  | arr (elems : List JsonVal)

/-- The character left brace, written via its code point. -/
def lbrace : Char := Char.ofNat 123

/-- The character right brace, written via its code point. -/
def rbrace : Char := Char.ofNat 125

/-- JSON insignificant whitespace characters. -/
def jsonWsChar (c : Char) : Bool :=
  c == ' ' || c == '\t' || c == '\n' || c == '\r'

/-- Skip JSON whitespace at the front of the input. -/
def skipWs : List Char → List Char
  | [] => []
  | c :: cs => if jsonWsChar c then skipWs cs else c :: cs

/-- Value of a hexadecimal digit character. -/
def hexVal (c : Char) : Option Nat :=
  if '0' ≤ c ∧ c ≤ '9' then some (c.toNat - '0'.toNat)
  else if 'a' ≤ c ∧ c ≤ 'f' then some (c.toNat - 'a'.toNat + 10)
  else if 'A' ≤ c ∧ c ≤ 'F' then some (c.toNat - 'A'.toNat + 10)
  else none

/-- Body of a JSON string literal, after the opening quote.  Returns the
decoded string and the remaining input.  Raw control characters are
rejected, escape sequences are decoded. -/
def strBody : List Char → List Char → Option (String × List Char)
  | acc, '\"' :: rest => some (⟨acc.reverse⟩, rest)
  | acc, '\\' :: 'u' :: a :: b :: c :: d :: rest =>
    match hexVal a, hexVal b, hexVal c, hexVal d with
    | some x, some y, some z, some w =>
      strBody (Char.ofNat (((x * 16 + y) * 16 + z) * 16 + w) :: acc) rest
    | _, _, _, _ => none
  | acc, '\\' :: e :: rest =>
    if e = '\"' then strBody ('\"' :: acc) rest
    else if e = '\\' then strBody ('\\' :: acc) rest
    else if e = '/' then strBody ('/' :: acc) rest
    else if e = 'b' then strBody ('\x08' :: acc) rest
    else if e = 'f' then strBody ('\x0c' :: acc) rest
    else if e = 'n' then strBody ('\n' :: acc) rest
    else if e = 'r' then strBody ('\r' :: acc) rest
    else if e = 't' then strBody ('\t' :: acc) rest
    else none
  | acc, c :: rest => if c.toNat < 32 then none else strBody (c :: acc) rest
  | _, [] => none

/-- Decimal digit characters folded into a natural number. -/
def digitsToNat (ds : List Char) : Nat :=
  ds.foldl (fun a c => a * 10 + (c.toNat - '0'.toNat)) 0

/-- Optional fraction part of a JSON number: digits after a dot. -/
def fracTail : List Char → Option (List Char × List Char)
  | '.' :: r =>
    let fs := r.takeWhile Char.isDigit
    if fs.isEmpty then none else some (fs, r.dropWhile Char.isDigit)
  | cs => some ([], cs)

/-- Optional exponent part of a JSON number. -/
def expTail : List Char → Option (Int × List Char)
  | c :: r =>
    if c = 'e' ∨ c = 'E' then
      let sr : Int × List Char :=
        match r with
        | '+' :: rr => (1, rr)
        | '-' :: rr => (-1, rr)
        | _ => (1, r)
      let es := sr.2.takeWhile Char.isDigit
      if es.isEmpty then none
      else some (sr.1 * (digitsToNat es : Int), sr.2.dropWhile Char.isDigit)
    else some (0, c :: r)
  | [] => some (0, [])

/-- A JSON number literal: optional minus, integer part without leading
zeros, optional fraction and exponent. -/
def parseNumber (cs : List Char) : Option (JsonVal × List Char) :=
  let sgn : Bool × List Char := match cs with | '-' :: r => (true, r) | _ => (false, cs)
  let ds := sgn.2.takeWhile Char.isDigit
  let r1 := sgn.2.dropWhile Char.isDigit
  if ds.isEmpty then none
  else if ds.length > 1 ∧ ds.head? = some '0' then none
  else
    match fracTail r1 with
    | none => none
    | some (fs, r2) =>
      match expTail r2 with
      | none => none
      | some (e, r3) =>
        let mant : Int := (digitsToNat ds * 10 ^ fs.length + digitsToNat fs : Nat)
        some (JsonVal.num (if sgn.1 then -mant else mant) (e - fs.length), r3)

/-- Mode of the recursive-descent JSON reader: a value, the members of an
object, or the elements of an array (with the members read so far). -/
inductive PMode : Type where
  | val
  | objBody (acc : List (String × JsonVal))
  | arrBody (acc : List JsonVal)

/-- One fuelled step of the JSON reader.  Fuel decreases on every
recursive call; callers pass fuel larger than the input length, which
bounds the recursion depth of any parse. -/
def parseStep : Nat → PMode → List Char → Option (JsonVal × List Char)
  | 0, _, _ => none
  | fuel + 1, PMode.val, cs =>
    match skipWs cs with
    | [] => none
    | c :: rest =>
      if c = lbrace then parseStep fuel (PMode.objBody []) rest
      else if c = '[' then parseStep fuel (PMode.arrBody []) rest
      else if c = '\"' then
        match strBody [] rest with
        | some (s, r) => some (JsonVal.str s, r)
        | none => none
      else
        match c :: rest with
        | 't' :: 'r' :: 'u' :: 'e' :: r => some (JsonVal.bool true, r)
        | 'f' :: 'a' :: 'l' :: 's' :: 'e' :: r => some (JsonVal.bool false, r)
        | 'n' :: 'u' :: 'l' :: 'l' :: r => some (JsonVal.null, r)
        | cs2 => parseNumber cs2
  | fuel + 1, PMode.objBody acc, cs =>
    match skipWs cs with
    | [] => none
    | c :: rest =>
      if c = rbrace && acc.isEmpty then some (JsonVal.obj [], rest)
      else if c = '\"' then
        match strBody [] rest with
        | none => none
        | some (k, r1) =>
          match skipWs r1 with
          | ':' :: r2 =>
            match parseStep fuel PMode.val r2 with
            | none => none
            | some (v, r3) =>
              match skipWs r3 with
              | ',' :: r4 => parseStep fuel (PMode.objBody (acc ++ [(k, v)])) r4
              | c2 :: r4 =>
                if c2 = rbrace then some (JsonVal.obj (acc ++ [(k, v)]), r4) else none
              | [] => none
          | _ => none
      else none
  | fuel + 1, PMode.arrBody acc, cs =>
    match skipWs cs with
    | [] => none
    | c :: rest =>
      if c = ']' && acc.isEmpty then some (JsonVal.arr [], rest)
      else
        match parseStep fuel PMode.val (c :: rest) with
        | none => none
        | some (v, r1) =>
          match skipWs r1 with
          | ',' :: r2 => parseStep fuel (PMode.arrBody (acc ++ [v])) r2
          | ']' :: r2 => some (JsonVal.arr (acc ++ [v]), r2)
          | _ => none

/-- The browser's JSON.parse: reads one JSON value and requires only
whitespace to remain. -/
def JSON.parse (s : String) : Option JsonVal :=
  match parseStep (3 * s.length + 8) PMode.val s.data with
  | some (v, rest) => if (skipWs rest).isEmpty then some v else none
  | none => none

example : JSON.parse "Internal Server Error" = none := rfl
example : JSON.parse "" = none := rfl
example : JSON.parse "\x7b\x7d" = some (JsonVal.obj []) := rfl
example : JSON.parse " \x7b \"filename\" : \"plan.pdf\" \x7d " =
    some (JsonVal.obj [("filename", JsonVal.str "plan.pdf")]) := rfl
example : JSON.parse "\x7b\"rows\":42,\"ok\":true\x7d" =
    some (JsonVal.obj [("rows", JsonVal.num 42 0), ("ok", JsonVal.bool true)]) := rfl
example : JSON.parse "[1,2]" =
    some (JsonVal.arr [JsonVal.num 1 0, JsonVal.num 2 0]) := rfl
example : JSON.parse "\x7b\"rows\":\x7d" = none := rfl
example : JSON.parse "-3" = some (JsonVal.num (-3) 0) := rfl
example : JSON.parse "4.25e2" = some (JsonVal.num 425 0) := rfl
example : JSON.parse "01" = none := rfl

/-! Number-to-string conversion as performed by JavaScript template
literals and String() on numbers.  Integers print as their decimal
digits; this is what every code path of the client feeds into the DOM. -/

/-- Decimal digit character for a value below ten. -/
def digitChar (n : Nat) : Char := Char.ofNat (48 + n)

/-- Fuelled decimal digit list of a natural number (most significant
first).  Fuel n + 1 always suffices, since a number has at most n + 1
digits; the fuel only makes the recursion structural. -/
def natDecAux : Nat → Nat → List Char
  | 0, _ => []
  | fuel + 1, n =>
    if n < 10 then [digitChar n]
    else natDecAux fuel (n / 10) ++ [digitChar (n % 10)]

/-- Decimal digit list of a natural number. -/
def natDecL (n : Nat) : List Char := natDecAux (n + 1) n

/-- Decimal string of a natural number. -/
def natDec (n : Nat) : String := ⟨natDecL n⟩

/-- Decimal string of an integer. -/
def intDec : Int → String
  | Int.ofNat n => natDec n
  | Int.negSucc n => "-" ++ natDec (n + 1)

/-- Drop trailing zero digits (used after the decimal point). -/
def dropTrailingZeros (ds : List Char) : List Char :=
  (ds.reverse.dropWhile (fun c => c == '0')).reverse

/-- Digits of fp padded on the left with zeros to width k. -/
def padDigits (k : Nat) (fp : Nat) : List Char :=
  List.replicate (k - (natDecL fp).length) '0' ++ natDecL fp

/-- JavaScript rendering of the number m * 10 ^ e.  Integral values print
as plain decimal integers (the only case the client's data ever hits);
finite decimals print with a decimal point and no trailing zeros.  The
double shortest-round-trip subtleties of JS are out of scope: every
number rendered by the client flows modelled here is an integer. -/
def numToStr (m e : Int) : String :=
  if 0 ≤ e then intDec (m * 10 ^ e.toNat)
  else
    let k := (-e).toNat
    let n := m.natAbs
    let sgn := if m < 0 then "-" else ""
    let ip := n / 10 ^ k
    let fp := n % 10 ^ k
    if fp = 0 then sgn ++ natDec ip
    else sgn ++ natDec ip ++ "." ++ ⟨dropTrailingZeros (padDigits k fp)⟩

example : numToStr 42 0 = "42" := rfl
example : numToStr (-3) 0 = "-3" := rfl
example : numToStr 425 (-1) = "42.5" := rfl
example : numToStr 420 (-1) = "42" := rfl

/-! JavaScript string conversion and truthiness for parsed JSON values,
as used by template literals, the logical-or fallbacks, and Error
messages in app.js. -/

mutual

/-- String() of a parsed JSON value in JS.  Objects print as
[object Object]; arrays join their elements with commas, rendering null
elements as empty. -/
def jsToString : JsonVal → String
  | JsonVal.str s => s
  | JsonVal.num m e => numToStr m e
  | JsonVal.bool b => if b then "true" else "false"
  | JsonVal.null => "null"
  | JsonVal.obj _ => "[object Object]"
  | JsonVal.arr xs => String.intercalate "," (jsArrParts xs)

/-- Array elements joined by Array.prototype.toString: null elements
render as empty strings. -/
def jsArrParts : List JsonVal → List String
  | [] => []
  | JsonVal.null :: rest => "" :: jsArrParts rest
  | v :: rest => jsToString v :: jsArrParts rest

end

/-- Template-literal rendering of a possibly-undefined value: a missing
field interpolates as the text undefined. -/
def jsDisplay : Option JsonVal → String
  | none => "undefined"
  | some v => jsToString v

/-- JS truthiness of a parsed JSON value. -/
def JsonVal.truthy : JsonVal → Bool
  | JsonVal.str s => s != ""
  | JsonVal.num m _ => m != 0
  | JsonVal.bool b => b
  | JsonVal.null => false
  | JsonVal.obj _ => true
  | JsonVal.arr _ => true

/-- JS truthiness of a possibly-undefined value. -/
def optTruthy : Option JsonVal → Bool
  | none => false
  | some v => v.truthy

/-- JS falsiness of a possibly-undefined value (the negation of
truthiness, as tested by the client's if-not guards). -/
def optFalsy (v : Option JsonVal) : Bool := !optTruthy v

/-- Raw field lookup backing property access: for an object, the value
bound to the key (the last binding wins, as with JSON.parse on duplicate
keys); for any other base, undefined.  Synchronous property access on a
base that may be null goes through jsGet below, which models the thrown
TypeError; MiniChat keeps this raw lookup (see its doc comment). -/
def JsonVal.get (v : JsonVal) (k : String) : Option JsonVal :=
  match v with
  | JsonVal.obj fs => fs.reverse.lookup k
  | _ => none

/-- Message of the TypeError thrown by property access on null (V8
wording with the property name unquoted; the exact text is
browser-specific and no theorem depends on it). -/
def typeErrorMsg (k : String) : String :=
  "Cannot read properties of null (reading " ++ k ++ ")"

/-- Property access base.k as evaluated synchronously in JS: throws a
TypeError when the base is null; otherwise the raw field lookup
(undefined on primitive bases, which box without throwing). -/
def jsGet (v : JsonVal) (k : String) : Except String (Option JsonVal) :=
  match v with
  | JsonVal.null => Except.error (typeErrorMsg k)
  | v => Except.ok (v.get k)

/-- The JS expression v || fallback converted to a message string, as in
new Error(data.error || res.statusText): the value's String() conversion
when it is truthy, otherwise the fallback. -/
def jsOrStr (v : Option JsonVal) (fallback : String) : String :=
  match v with
  | some x => if x.truthy then jsToString x else fallback
  | none => fallback

/-- The JS expression v || fallback kept as a value, as in
data.detail || a default string. -/
def jsOrVal (v : Option JsonVal) (fallback : JsonVal) : JsonVal :=
  match v with
  | some x => if x.truthy then x else fallback
  | none => fallback

example : jsDisplay (some (JsonVal.str "plan.pdf")) = "plan.pdf" := rfl
example : jsDisplay none = "undefined" := rfl

/-! The network boundary.  A request either rejects at fetch level or
yields a response with an HTTP status, a status text and a body text. -/

/-- Outcome of one fetch call as observed by the client. -/
inductive FetchOutcome : Type where
  | networkError (msg : String)
  | response (status : Nat) (statusText : String) (body : String)

/-- res.ok in the browser: status in the 2xx range. -/
def resOk (status : Nat) : Bool := 200 ≤ status && status < 300

/-- Result of the fetchJSON helper: parsed data, or a thrown Error whose
message the caller renders. -/
inductive FetchResult : Type where
  | ok (data : JsonVal)
  | error (msg : String)

/-- The fetchJSON helper of app.js: read the body text, parse it as JSON
when non-empty (an empty body stands for an empty object), surface the
raw text (or the status text) when parsing throws, and on a non-2xx
status throw the structured error field or the status text.  The
data.error read sits outside the parse try block, so when the parsed
body is null that read itself throws a TypeError, which is what
propagates to the caller instead of the constructed Error. -/
def fetchJSON : FetchOutcome → FetchResult
  | FetchOutcome.networkError msg => FetchResult.error msg
  | FetchOutcome.response status statusText body =>
    match (if body = "" then some (JsonVal.obj []) else JSON.parse body) with
    | none => FetchResult.error (if body = "" then statusText else body)
    | some data =>
      if resOk status then FetchResult.ok data
      else
        match jsGet data "error" with
        | Except.error m => FetchResult.error m
        | Except.ok v => FetchResult.error (jsOrStr v statusText)

/-! The upload/analyze UI state machine of app.js. -/

/-- A DOM button: its disabled flag and its label. -/
structure Btn : Type where
  disabled : Bool
  textContent : String

/-- The setBusy helper of app.js: set the disabled flag, and overwrite
the label with the busy or idle text when that text is non-empty. -/
def setBusy (btn : Btn) (busy : Bool) (busyText idleText : String) : Btn :=
  let b1 : Btn := { btn with disabled := busy }
  let b2 : Btn := if busy && busyText != "" then { b1 with textContent := busyText } else b1
  if !busy && idleText != "" then { b2 with textContent := idleText } else b2

/-- The showError helper of app.js: the innerHTML written into the target
container for a failure message. -/
def showError (message : String) : String :=
  "<pre style=\"color:#ffb4b4;background:#2a0f14;border:1px solid #5b1f25;border-radius:8px;padding:10px;\">Error: "
    ++ message ++ "</pre>"

/-- Client-side state touched by the app.js handlers.  uploadedFile is
the module-level variable: none stands for JS null as well as for
undefined (both are falsy and indistinguishable to every guard and
fallback in the code). -/
structure ClientState : Type where
  uploadedFile : Option JsonVal
  uploadBtn : Btn
  analyzeBtn : Btn
  aiAgentBtn : Btn
  uploadStatus : String
  analysisResult : String
  aiResult : String

/-- The catch block of the upload handler: null the session, disable
analyze and the AI agent, show the thrown message (or the fallback when
it is empty). -/
def uploadCatch (st1 : ClientState) (msg : String) : ClientState :=
  { st1 with
    uploadedFile := none,
    analyzeBtn := { st1.analyzeBtn with disabled := true },
    aiAgentBtn := { st1.aiAgentBtn with disabled := true },
    analysisResult := showError (if msg = "" then "Upload failed" else msg),
    uploadStatus := "Upload failed" }

/-- The uploadForm submit handler.  fileSelected models
fileInput.files.length being non-zero; outcome is the settled fetch of
POST /api/upload.  The first statement of the try block after fetchJSON
is uploadedFile = data.filename, which throws into the catch when the
parsed body is null.  Returns the state after the finally block. -/
def handleUpload (st : ClientState) (fileSelected : Bool) (outcome : FetchOutcome) :
    ClientState :=
  if !fileSelected then st
  else
    let st1 : ClientState :=
      { st with
        uploadBtn := setBusy st.uploadBtn true "Uploading..." "Upload",
        analyzeBtn := { st.analyzeBtn with disabled := true },
        uploadStatus := "Uploading…" }
    let st2 : ClientState :=
      match fetchJSON outcome with
      | FetchResult.ok data =>
        match jsGet data "filename" with
        | Except.error m => uploadCatch st1 m
        | Except.ok uf =>
          { st1 with
            uploadedFile := uf,
            uploadStatus := "Uploaded: " ++ jsDisplay uf,
            analyzeBtn := { st1.analyzeBtn with disabled := false },
            aiAgentBtn := { st1.aiAgentBtn with disabled := false },
            analysisResult := "<pre>Ready to analyze: " ++ jsDisplay uf ++ "</pre>",
            aiResult := "<pre>Ready to run AI Agent on: " ++ jsDisplay uf ++ "</pre>" }
      | FetchResult.error msg => uploadCatch st1 msg
    { st2 with uploadBtn := setBusy st2.uploadBtn false "" "Upload" }

/-- The cache-busted download URL: the returned path followed by a
query parameter built from Date.now(). -/
def mkBustedUrl (pathVal : Option JsonVal) (now : Nat) : String :=
  jsDisplay pathVal ++ "?t=" ++ natDec now

/-- The CSV download anchor markup. -/
def csvLink (url : String) : String :=
  "<a class=\"btn-link\" href=\"" ++ url ++ "\" download>Download CSV</a>"

/-- The Excel download anchor markup. -/
def xlsxLink (url : String) : String :=
  "<a class=\"btn-link\" href=\"" ++ url ++ "\" download>Download Excel</a>"

/-- The rows value interpolated into the result panel: the number itself
when typeof data.rows is number, the em dash fallback otherwise. -/
def rowsDisplay (data : JsonVal) : String :=
  match data.get "rows" with
  | some (JsonVal.num m e) => numToStr m e
  | _ => "—"

/-- The links markup of the analyze handler: always the CSV link, plus
the Excel link when the response carries a truthy download_url_xlsx.
nowCsv and nowXlsx are the two Date.now() readings. -/
def analyzeLinks (data : JsonVal) (nowCsv nowXlsx : Nat) : String :=
  let csvUrl := mkBustedUrl (data.get "download_url_csv") nowCsv
  if optTruthy (data.get "download_url_xlsx") then
    csvLink csvUrl ++ xlsxLink (mkBustedUrl (data.get "download_url_xlsx") nowXlsx)
  else csvLink csvUrl

/-- The completed-analysis innerHTML template. -/
def analysisCompleteHTML (rows links : String) : String :=
  "\n      <h3>Analysis complete</h3>\n      <p>Rows extracted: <strong>" ++ rows
    ++ "</strong></p>\n      <div>" ++ links ++ "</div>\n    "

/-- The analyzeBtn click handler.  nowCsv and nowXlsx are the Date.now()
readings taken while rendering; outcome is the settled fetch of
POST /api/analyze.  Without a truthy uploadedFile the handler alerts and
returns before doing anything.  The first statement after fetchJSON
reads data.download_url_csv, which throws into the catch when the
parsed body is null; once it succeeds the base is non-null and the
remaining reads cannot throw. -/
def handleAnalyze (st : ClientState) (nowCsv nowXlsx : Nat) (outcome : FetchOutcome) :
    ClientState :=
  if optFalsy st.uploadedFile then st
  else
    let st1 : ClientState :=
      { st with
        analyzeBtn := setBusy st.analyzeBtn true "Analyzing..." "Analyze",
        analysisResult := "<pre>Analyzing " ++ jsDisplay st.uploadedFile ++ "…</pre>" }
    let st2 : ClientState :=
      match fetchJSON outcome with
      | FetchResult.ok data =>
        match jsGet data "download_url_csv" with
        | Except.error m =>
          { st1 with analysisResult := showError (if m = "" then "Analysis failed" else m) }
        | Except.ok _ =>
          { st1 with
            analysisResult :=
              analysisCompleteHTML (rowsDisplay data) (analyzeLinks data nowCsv nowXlsx) }
      | FetchResult.error msg =>
        { st1 with analysisResult := showError (if msg = "" then "Analysis failed" else msg) }
    { st2 with analyzeBtn := setBusy st2.analyzeBtn false "" "Analyze" }

/-- JSON string escaping as used by JSON.stringify: quote, backslash and
the common control characters. -/
def escapeChar (c : Char) : String :=
  if c = '\"' then "\\\""
  else if c = '\\' then "\\\\"
  else if c = '\n' then "\\n"
  else if c = '\r' then "\\r"
  else if c = '\t' then "\\t"
  else if c = '\x08' then "\\b"
  else if c = '\x0c' then "\\f"
  else ⟨[c]⟩

/-- A JSON string literal for JSON.stringify output. -/
def quoteStr (s : String) : String :=
  "\"" ++ String.join (s.data.map escapeChar) ++ "\""

mutual

/-- JSON.stringify(v, null, 2) at a given indentation level. -/
def stringify : JsonVal → Nat → String
  | JsonVal.str s, _ => quoteStr s
  | JsonVal.num m e, _ => numToStr m e
  | JsonVal.bool b, _ => if b then "true" else "false"
  | JsonVal.null, _ => "null"
  | JsonVal.obj [], _ => ⟨[lbrace, rbrace]⟩
  | JsonVal.obj (f :: fs), ind =>
    ⟨[lbrace]⟩ ++ "\n" ++ stringifyFields (f :: fs) (ind + 2) ++ "\n"
      ++ ⟨List.replicate ind ' '⟩ ++ ⟨[rbrace]⟩
  | JsonVal.arr [], _ => "[]"
  | JsonVal.arr (v :: vs), ind =>
    "[\n" ++ stringifyElems (v :: vs) (ind + 2) ++ "\n"
      ++ ⟨List.replicate ind ' '⟩ ++ "]"

/-- The members of an object, one per line, comma separated. -/
def stringifyFields : List (String × JsonVal) → Nat → String
  | [], _ => ""
  | [(k, v)], ind => ⟨List.replicate ind ' '⟩ ++ quoteStr k ++ ": " ++ stringify v ind
  | (k, v) :: f :: fs, ind =>
    ⟨List.replicate ind ' '⟩ ++ quoteStr k ++ ": " ++ stringify v ind ++ ",\n"
      ++ stringifyFields (f :: fs) ind

/-- The elements of an array, one per line, comma separated. -/
def stringifyElems : List JsonVal → Nat → String
  | [], _ => ""
  | [v], ind => ⟨List.replicate ind ' '⟩ ++ stringify v ind
  | v :: w :: vs, ind =>
    ⟨List.replicate ind ' '⟩ ++ stringify v ind ++ ",\n" ++ stringifyElems (w :: vs) ind

end

/-- The aiAgentBtn click handler; outcome is the settled fetch of
POST /api/agent.  Without a truthy uploadedFile the handler alerts and
returns before doing anything.  Note the finally block: the agent button
is re-enabled whatever the outcome, including a 429 response. -/
def handleAgent (st : ClientState) (outcome : FetchOutcome) : ClientState :=
  if optFalsy st.uploadedFile then st
  else
    let st1 : ClientState :=
      { st with
        aiAgentBtn := setBusy st.aiAgentBtn true "Running AI..." "Run AI Agent",
        aiResult := "<pre>Running AI Agent on " ++ jsDisplay st.uploadedFile ++ "…</pre>" }
    let st2 : ClientState :=
      match fetchJSON outcome with
      | FetchResult.ok data => { st1 with aiResult := "<pre>" ++ stringify data 0 ++ "</pre>" }
      | FetchResult.error msg =>
        { st1 with aiResult := showError (if msg = "" then "AI Agent failed" else msg) }
    { st2 with aiAgentBtn := setBusy st2.aiAgentBtn false "" "Run AI Agent" }

/-! The MiniChat React component (frontend, /api/homechat). -/

/-- Whitespace for String.prototype.trim: ASCII whitespace plus the
common Unicode blanks (NBSP, BOM, line and paragraph separators). -/
def jsWsChar (c : Char) : Bool :=
  c == ' ' || c == '\t' || c == '\n' || c == '\r' || c == '\x0b' || c == '\x0c'
    || c == Char.ofNat 0xa0 || c == Char.ofNat 0x2028 || c == Char.ofNat 0x2029
    || c == Char.ofNat 0xfeff

/-- String.prototype.trim. -/
def jsTrim (s : String) : String :=
  ⟨((s.data.dropWhile jsWsChar).reverse.dropWhile jsWsChar).reverse⟩

example : jsTrim "  hi there\n" = "hi there" := rfl
example : jsTrim "   " = "" := rfl

/-- Number(string) coercion restricted to the decimal grammar (the only
shapes the chat backend sends); whitespace-only coerces to zero and
anything unparsable to NaN, modelled as none. -/
def toNumberVal (s : String) : Option Int :=
  let t := jsTrim s
  if t = "" then some 0
  else
    let sgn : Bool × List Char :=
      match t.data with
      | '-' :: r => (true, r)
      | '+' :: r => (false, r)
      | cs => (false, cs)
    match parseNumber (if sgn.1 then '-' :: sgn.2 else sgn.2) with
    | some (JsonVal.num m _, []) => some m
    | _ => none

/-- The JS comparison v <= 0 for the remaining field: numbers compare by
sign of the mantissa, null and false coerce to zero, undefined and NaN
compare false, strings coerce through Number(). -/
def jsLeZeroVal : Option JsonVal → Bool
  | none => false
  | some JsonVal.null => true
  | some (JsonVal.bool b) => !b
  | some (JsonVal.num m _) => decide (m ≤ 0)
  | some (JsonVal.str s) =>
    match toNumberVal s with
    | some m => decide (m ≤ 0)
    | none => false
  | some (JsonVal.obj _) => false
  | some (JsonVal.arr xs) =>
    match toNumberVal (jsToString (JsonVal.arr xs)) with
    | some m => decide (m ≤ 0)
    | none => false

/-- One rendered chat message.  The text of a bot message is the raw
answer field and may be absent (undefined). -/
structure ChatMsg : Type where
  sender : String
  text : Option JsonVal

/-- The MiniChat component state: message list, input box, disabled
flag. -/
structure ChatState : Type where
  messages : List ChatMsg
  input : String
  disabled : Bool

/-- The MiniChat send function.  The trimmed input must be non-empty or
nothing at all happens; otherwise the user message is appended, the
input cleared, and the settled fetch of POST /api/homechat handled:
network errors and bodies res.json() cannot parse append a system error
message, a 429 with parseable body appends the detail text and disables
the chat, and any other status appends the bot answer, disabling the
chat when the remaining field compares at most zero.  Field reads use
the raw lookup: data.detail and data.answer are only evaluated inside
deferred state-updater closures (after setDisabled has already run in
the 429 branch), and a throw at the synchronous data.remaining read
lands in the same catch, which only appends a message. -/
def MiniChat.send (st : ChatState) (outcome : FetchOutcome) : ChatState :=
  let question := jsTrim st.input
  if question = "" then st
  else
    let st1 : ChatState :=
      { st with
        messages := st.messages ++ [⟨"You", some (JsonVal.str question)⟩],
        input := "" }
    match outcome with
    | FetchOutcome.networkError _ =>
      { st1 with
        messages := st1.messages ++ [⟨"System", some (JsonVal.str "Error connecting to server")⟩] }
    | FetchOutcome.response status _ body =>
      if status = 429 then
        match JSON.parse body with
        | none =>
          { st1 with
            messages :=
              st1.messages ++ [⟨"System", some (JsonVal.str "Error connecting to server")⟩] }
        | some data =>
          { st1 with
            messages :=
              st1.messages
                ++ [⟨"System", some (jsOrVal (data.get "detail") (JsonVal.str "Limit reached"))⟩],
            disabled := true }
      else
        match JSON.parse body with
        | none =>
          { st1 with
            messages :=
              st1.messages ++ [⟨"System", some (JsonVal.str "Error connecting to server")⟩] }
        | some data =>
          let st2 : ChatState :=
            { st1 with messages := st1.messages ++ [⟨"Bot", data.get "answer"⟩] }
          if jsLeZeroVal (data.get "remaining") then { st2 with disabled := true } else st2

/-! Concrete fixtures used to instantiate the theorems below. -/

/-- The page as loaded: no session, analyze and agent disabled. -/
def initState : ClientState :=
  { uploadedFile := none,
    uploadBtn := { disabled := false, textContent := "Upload" },
    analyzeBtn := { disabled := true, textContent := "Analyze" },
    aiAgentBtn := { disabled := true, textContent := "Run AI Agent" },
    uploadStatus := "",
    analysisResult := "",
    aiResult := "" }

/-- A state right after a successful upload of plan.pdf. -/
def sessionState : ClientState :=
  { initState with
    uploadedFile := some (JsonVal.str "plan.pdf"),
    analyzeBtn := { disabled := false, textContent := "Analyze" },
    aiAgentBtn := { disabled := false, textContent := "Run AI Agent" },
    uploadStatus := "Uploaded: plan.pdf" }

/-- A successful upload response carrying a filename. -/
def uploadOkOutcome : FetchOutcome :=
  FetchOutcome.response 200 "OK" "\x7b\"filename\":\"plan.pdf\"\x7d"

/-- A successful analyze response with a numeric row count and a CSV
path. -/
def analyzeOkOutcome : FetchOutcome :=
  FetchOutcome.response 200 "OK" "\x7b\"rows\":42,\"download_url_csv\":\"/files/plan.csv\"\x7d"

/-- An analyze response whose rows field is the string unknown. -/
def unknownRowsOutcome : FetchOutcome :=
  FetchOutcome.response 200 "OK"
    "\x7b\"rows\":\"unknown\",\"download_url_csv\":\"/files/plan.csv\"\x7d"

/-- The parsed body of unknownRowsOutcome. -/
def unknownRowsData : JsonVal :=
  JsonVal.obj [("rows", JsonVal.str "unknown"), ("download_url_csv", JsonVal.str "/files/plan.csv")]

/-- A 429 rate-limit response with a structured error body. -/
def agent429Outcome : FetchOutcome :=
  FetchOutcome.response 429 "Too Many Requests" "\x7b\"error\":\"Rate limit exceeded\"\x7d"

/-! C1.  The claim quantifies over every response body that is not
well-formed JSON.  The empty string is not well-formed JSON (JSON.parse
of it throws), yet the client special-cases it to an empty object
instead of surfacing it, so the claim as stated fails on an empty body;
for every non-empty unparsable body it holds. -/

/-- C1 counterexample: an empty body is not well-formed JSON, yet a 200
response with an empty body is treated as a successful empty object (no
error is surfaced at all), and a 500 response with an empty body
surfaces the status text rather than the raw body text. -/
theorem C1_cex :
    JSON.parse "" = none ∧
    fetchJSON (FetchOutcome.response 200 "OK" "") = FetchResult.ok (JsonVal.obj []) ∧
    fetchJSON (FetchOutcome.response 500 "Internal Server Error" "")
      = FetchResult.error "Internal Server Error" :=
  ⟨rfl, rfl, rfl⟩

/-- C1 (amended): for every upload or analyze request whose response
body is non-empty and not well-formed JSON, fetchJSON throws the raw
body text verbatim, and both the upload and the analyze handlers render
exactly that text in the error panel (never a generic parse-failure
message).  An empty body is instead treated as an empty object. -/
theorem C1_raw_body_surfaced (status : Nat) (statusText body : String)
    (st : ClientState) (n1 n2 : Nat)
    (hbody : body ≠ "") (hparse : JSON.parse body = none)
    (hsess : optFalsy st.uploadedFile = false) :
    fetchJSON (FetchOutcome.response status statusText body) = FetchResult.error body ∧
    (handleUpload st true (FetchOutcome.response status statusText body)).analysisResult
      = showError body ∧
    (handleAnalyze st n1 n2 (FetchOutcome.response status statusText body)).analysisResult
      = showError body := by
  have hf : fetchJSON (FetchOutcome.response status statusText body) = FetchResult.error body := by
    simp [fetchJSON, hbody, hparse]
  refine ⟨hf, ?_, ?_⟩
  · simp [handleUpload, hf, uploadCatch, hbody]
  · simp [handleAnalyze, hsess, hf, hbody]

/-- C1 witness: the spec scenario, a 500 response whose plain-text body
is Internal Server Error. -/
theorem C1_raw_body_surfaced_witness :
    fetchJSON (FetchOutcome.response 500 "Internal Server Error" "Internal Server Error")
      = FetchResult.error "Internal Server Error" ∧
    (handleUpload sessionState true
        (FetchOutcome.response 500 "Internal Server Error" "Internal Server Error")).analysisResult
      = showError "Internal Server Error" ∧
    (handleAnalyze sessionState 5 5
        (FetchOutcome.response 500 "Internal Server Error" "Internal Server Error")).analysisResult
      = showError "Internal Server Error" :=
  C1_raw_body_surfaced 500 "Internal Server Error" "Internal Server Error" sessionState 5 5
    (by decide) rfl rfl

/-! C2.  The success branch of the upload handler enables the analyze
button unconditionally; it never checks whether the response carried a
filename field. -/

/-- C2 counterexample: a successful upload whose body is the empty
object (no filename field) still enables the analyze action, refuting
the only-if direction of the claim. -/
theorem C2_cex :
    (handleUpload initState true (FetchOutcome.response 200 "OK" "\x7b\x7d")).analyzeBtn.disabled
      = false ∧
    (handleUpload initState true (FetchOutcome.response 200 "OK" "\x7b\x7d")).uploadedFile
      = none :=
  ⟨rfl, rfl⟩

/-- Property access through jsGet agrees with the raw lookup on every
non-null base. -/
theorem jsGet_ne_null (v : JsonVal) (k : String) (h : v ≠ JsonVal.null) :
    jsGet v k = Except.ok (v.get k) := by
  cases v <;> simp_all [jsGet]

/-- C2 (amended): every upload request that completes successfully (2xx
with a body fetchJSON accepts) whose parsed body is not null enables
the analyze action, whether or not the response contains a filename
field, the stored reference being whatever the filename field holds
(undefined when absent); when the body parses to null the filename read
throws, the catch runs, analyze and the AI agent end up disabled and
the stored reference nulled. -/
theorem C2_success_enables_analyze (st : ClientState) (o : FetchOutcome) (data : JsonVal)
    (h : fetchJSON o = FetchResult.ok data) :
    (data ≠ JsonVal.null →
      (handleUpload st true o).analyzeBtn.disabled = false ∧
      (handleUpload st true o).uploadedFile = data.get "filename") ∧
    (data = JsonVal.null →
      (handleUpload st true o).analyzeBtn.disabled = true ∧
      (handleUpload st true o).aiAgentBtn.disabled = true ∧
      (handleUpload st true o).uploadedFile = none) := by
  constructor
  · intro hnull
    constructor <;> simp [handleUpload, h, jsGet_ne_null data "filename" hnull]
  · intro hnull
    subst hnull
    refine ⟨?_, ?_, ?_⟩ <;> simp [handleUpload, h, jsGet, uploadCatch]

/-- C2 witness: a successful upload with a filename enables analyze and
stores the filename. -/
theorem C2_success_enables_analyze_witness :
    (JsonVal.obj [("filename", JsonVal.str "plan.pdf")] ≠ JsonVal.null →
      (handleUpload initState true uploadOkOutcome).analyzeBtn.disabled = false ∧
      (handleUpload initState true uploadOkOutcome).uploadedFile
        = (JsonVal.obj [("filename", JsonVal.str "plan.pdf")]).get "filename") ∧
    (JsonVal.obj [("filename", JsonVal.str "plan.pdf")] = JsonVal.null →
      (handleUpload initState true uploadOkOutcome).analyzeBtn.disabled = true ∧
      (handleUpload initState true uploadOkOutcome).aiAgentBtn.disabled = true ∧
      (handleUpload initState true uploadOkOutcome).uploadedFile = none) :=
  C2_success_enables_analyze initState uploadOkOutcome
    (JsonVal.obj [("filename", JsonVal.str "plan.pdf")]) rfl

/-! C3.  Only MiniChat treats 429 specially.  The /api/agent click
handler funnels a 429 through the generic error path and its finally
block re-enables the button, so submissions on /api/agent are not
disabled after a 429. -/

/-- C3 counterexample: after a 429 response on /api/agent the agent
button is enabled again (the finally block re-enables it), so further
submissions are possible, refuting the claim for that endpoint. -/
theorem C3_cex :
    (handleAgent sessionState agent429Outcome).aiAgentBtn.disabled = false :=
  rfl

/-- C3 (amended): a 429 with parseable body on /api/homechat disables
further MiniChat submission, while the /api/agent handler leaves its
button enabled after every settled request, 429 included; neither
handler ever retries (each invocation issues exactly one request). -/
theorem C3_rate_limit_handling (chat : ChatState) (st : ClientState)
    (statusText body : String) (data : JsonVal) (o : FetchOutcome)
    (hq : jsTrim chat.input ≠ "") (hp : JSON.parse body = some data)
    (hs : optFalsy st.uploadedFile = false) :
    (MiniChat.send chat (FetchOutcome.response 429 statusText body)).disabled = true ∧
    (handleAgent st o).aiAgentBtn.disabled = false := by
  constructor
  · simp [MiniChat.send, hq, hp]
  · cases hf : fetchJSON o <;> simp [handleAgent, hs, hf, setBusy]

/-- C3 witness: a concrete 429 on both endpoints. -/
theorem C3_rate_limit_handling_witness :
    (MiniChat.send { messages := [], input := "hello", disabled := false }
        (FetchOutcome.response 429 "Too Many Requests"
          "\x7b\"detail\":\"Daily limit reached\"\x7d")).disabled = true ∧
    (handleAgent sessionState agent429Outcome).aiAgentBtn.disabled = false :=
  C3_rate_limit_handling { messages := [], input := "hello", disabled := false }
    sessionState "Too Many Requests" "\x7b\"detail\":\"Daily limit reached\"\x7d"
    (JsonVal.obj [("detail", JsonVal.str "Daily limit reached")]) agent429Outcome
    (by decide) rfl rfl

/-! C4.  The catch branch of the upload handler clears the session and
disables both actions for every thrown failure; but the claim also
counts an unparsable 2xx body, and the empty body — unparsable JSON —
is special-cased into a success. -/

/-- C4 counterexample: a 200 upload response with an empty body (not
parseable as JSON) takes the success path: analyze ends up enabled, not
disabled as the claim requires for an unparsable 2xx body. -/
theorem C4_cex :
    JSON.parse "" = none ∧
    (handleUpload sessionState true (FetchOutcome.response 200 "OK" "")).analyzeBtn.disabled
      = false :=
  ⟨rfl, rfl⟩

/-- The failure cases of an upload fetch that reach the catch block:
a fetch-level rejection, a non-2xx status, or a non-empty body that
JSON.parse rejects. -/
def uploadFailure : FetchOutcome → Prop
  | FetchOutcome.networkError _ => True
  | FetchOutcome.response status _ body =>
    resOk status = false ∨ (body ≠ "" ∧ JSON.parse body = none)

/-- Every upload failure makes fetchJSON throw. -/
theorem uploadFailure_error (o : FetchOutcome) (h : uploadFailure o) :
    ∃ msg, fetchJSON o = FetchResult.error msg := by
  cases o with
  | networkError m => exact ⟨m, rfl⟩
  | response status statusText body =>
    rcases h with hok | ⟨hb, hp⟩
    · by_cases hb : body = ""
      · exact ⟨jsOrStr ((JsonVal.obj []).get "error") statusText,
          by simp [fetchJSON, hb, hok, jsGet]⟩
      · cases hp : JSON.parse body with
        | none => exact ⟨body, by simp [fetchJSON, hb, hp]⟩
        | some data =>
          cases hg : jsGet data "error" with
          | error m => exact ⟨m, by simp [fetchJSON, hb, hp, hok, hg]⟩
          | ok v => exact ⟨jsOrStr v statusText, by simp [fetchJSON, hb, hp, hok, hg]⟩
    · exact ⟨body, by simp [fetchJSON, hb, hp]⟩

/-- C4 (amended): every upload failure that reaches the catch block —
network exception, non-2xx status, or a non-empty unparsable body —
nulls the stored session and disables analyze (and the AI agent).  A
2xx response with an empty body is instead treated as a success with an
empty object. -/
theorem C4_failed_upload_clears_session (st : ClientState) (o : FetchOutcome)
    (h : uploadFailure o) :
    (handleUpload st true o).uploadedFile = none ∧
    (handleUpload st true o).analyzeBtn.disabled = true ∧
    (handleUpload st true o).aiAgentBtn.disabled = true := by
  obtain ⟨msg, hf⟩ := uploadFailure_error o h
  refine ⟨?_, ?_, ?_⟩ <;> simp [handleUpload, hf, uploadCatch]

/-- C4 witness: a network-level failure clears the stored session and
disables both actions. -/
theorem C4_failed_upload_clears_session_witness :
    (handleUpload sessionState true (FetchOutcome.networkError "Failed to fetch")).uploadedFile
      = none ∧
    (handleUpload sessionState true
        (FetchOutcome.networkError "Failed to fetch")).analyzeBtn.disabled = true ∧
    (handleUpload sessionState true
        (FetchOutcome.networkError "Failed to fetch")).aiAgentBtn.disabled = true :=
  C4_failed_upload_clears_session sessionState (FetchOutcome.networkError "Failed to fetch")
    trivial

/-! C5.  The analyze handler never writes uploadedFile: a failed
analysis leaves the stored session reference untouched. -/

/-- C5: for every analysis request that fails, the stored upload session
reference after the handler equals the one before it. -/
theorem C5_failed_analysis_preserves_session (st : ClientState) (n1 n2 : Nat)
    (o : FetchOutcome) (msg : String) (h : fetchJSON o = FetchResult.error msg) :
    (handleAnalyze st n1 n2 o).uploadedFile = st.uploadedFile := by
  cases hg : optFalsy st.uploadedFile <;> simp [handleAnalyze, hg, h]

/-- C5 witness: a network failure during analysis leaves the plan.pdf
session in place. -/
theorem C5_failed_analysis_preserves_session_witness :
    (handleAnalyze sessionState 5 5 (FetchOutcome.networkError "Failed to fetch")).uploadedFile
      = sessionState.uploadedFile :=
  C5_failed_analysis_preserves_session sessionState 5 5
    (FetchOutcome.networkError "Failed to fetch") "Failed to fetch" rfl

/-! C6.  The cache-busted URLs of two analysis runs differ exactly when
the two Date.now() readings differ: Date.now() has millisecond
resolution, so two runs resolving within the same millisecond render
identical URLs, refuting the unconditional claim.  The decimal digit
string of a natural number is injective, which proves the amended
claim. -/

/-- Decimal digit characters below ten are pairwise distinct. -/
theorem digitChar_inj (a b : Nat) (ha : a < 10) (hb : b < 10)
    (h : digitChar a = digitChar b) : a = b := by
  interval_cases a <;> interval_cases b <;> revert h <;> decide

/-- The digit list of n does not depend on the fuel, as long as the fuel
exceeds n. -/
theorem natDecAux_fuel (n : Nat) : ∀ f1 f2, n < f1 → n < f2 →
    natDecAux f1 n = natDecAux f2 n := by
  induction n using Nat.strong_induction_on with
  | _ n ih =>
    intro f1 f2 h1 h2
    cases f1 with
    | zero => omega
    | succ f1 =>
      cases f2 with
      | zero => omega
      | succ f2 =>
        simp only [natDecAux]
        by_cases hn : n < 10
        · simp [hn]
        · have hd : n / 10 < n := Nat.div_lt_self (by omega) (by omega)
          simp only [if_neg hn]
          rw [ih (n / 10) hd f1 f2 (by omega) (by omega)]

/-- Unfolding equation for the digit list. -/
theorem natDecL_eq (n : Nat) :
    natDecL n = if n < 10 then [digitChar n]
      else natDecL (n / 10) ++ [digitChar (n % 10)] := by
  unfold natDecL
  rw [natDecAux]
  by_cases hn : n < 10
  · simp [hn]
  · have hd : n / 10 < n := Nat.div_lt_self (by omega) (by omega)
    simp only [if_neg hn]
    rw [natDecAux_fuel (n / 10) n (n / 10 + 1) (by omega) (by omega)]

/-- A digit list is never empty. -/
theorem natDecL_ne_nil (n : Nat) : natDecL n ≠ [] := by
  rw [natDecL_eq]
  by_cases hn : n < 10 <;> simp [hn]

/-- The decimal digit list of a natural number determines the number. -/
theorem natDecL_inj (n : Nat) : ∀ m, natDecL n = natDecL m → n = m := by
  induction n using Nat.strong_induction_on with
  | _ n ih =>
    intro m h
    rw [natDecL_eq n, natDecL_eq m] at h
    by_cases hn : n < 10 <;> by_cases hm : m < 10
    · simp only [if_pos hn, if_pos hm] at h
      exact digitChar_inj n m hn hm (by injection h)
    · simp only [if_pos hn, if_neg hm] at h
      cases hl : natDecL (m / 10) with
      | nil => exact absurd hl (natDecL_ne_nil (m / 10))
      | cons a as =>
        rw [hl] at h
        simp at h
    · simp only [if_neg hn, if_pos hm] at h
      cases hl : natDecL (n / 10) with
      | nil => exact absurd hl (natDecL_ne_nil (n / 10))
      | cons a as =>
        rw [hl] at h
        simp at h
    · simp only [if_neg hn, if_neg hm] at h
      have h2 := congrArg List.reverse h
      simp only [List.reverse_append, List.reverse_singleton, List.singleton_append,
        List.cons.injEq] at h2
      have hmod : n % 10 = m % 10 :=
        digitChar_inj _ _ (Nat.mod_lt _ (by omega)) (Nat.mod_lt _ (by omega)) h2.1
      have hdiv : natDecL (n / 10) = natDecL (m / 10) := by
        have h3 := congrArg List.reverse h2.2
        simpa using h3
      have hd : n / 10 < n := Nat.div_lt_self (by omega) (by omega)
      have := ih (n / 10) hd (m / 10) hdiv
      omega

/-- String data distributes over append. -/
theorem strData_append (a b : String) : (a ++ b).data = a.data ++ b.data := by
  cases a
  cases b
  rfl

/-- The decimal string of a natural number determines the number. -/
theorem natDec_inj (n m : Nat) (h : natDec n = natDec m) : n = m :=
  natDecL_inj n m (congrArg String.data h)

/-- C6 counterexample: two successive analysis runs on the same stored
filename, both resolving with the same download path and the same
Date.now() reading, render identical result panels — in particular the
same download URL, not distinct ones. -/
theorem C6_cex :
    (handleAnalyze (handleAnalyze sessionState 1000 1000 analyzeOkOutcome) 1000 1000
        analyzeOkOutcome).analysisResult
      = (handleAnalyze sessionState 1000 1000 analyzeOkOutcome).analysisResult :=
  rfl

/-- C6 (amended): for every pair of analysis runs whose responses carry
the same download path, the two rendered download URLs are distinct
whenever the two Date.now() readings differ (each URL is the returned
path annotated with a query parameter built from the timestamp); within
the same millisecond the URLs coincide. -/
theorem C6_distinct_cache_busted_urls (p : Option JsonVal) (t1 t2 : Nat) (h : t1 ≠ t2) :
    mkBustedUrl p t1 ≠ mkBustedUrl p t2 := by
  intro heq
  apply h
  have hd := congrArg String.data heq
  simp only [mkBustedUrl, strData_append] at hd
  exact natDecL_inj t1 t2 (List.append_cancel_left hd)

/-- C6 witness: the plan.csv path at two consecutive millisecond
timestamps yields two different URLs. -/
theorem C6_distinct_cache_busted_urls_witness :
    mkBustedUrl (some (JsonVal.str "/files/plan.csv")) 1000
      ≠ mkBustedUrl (some (JsonVal.str "/files/plan.csv")) 1001 :=
  C6_distinct_cache_busted_urls (some (JsonVal.str "/files/plan.csv")) 1000 1001 (by decide)

/-! C7.  The rows value rendered into the result panel is the ternary
typeof data.rows === number, embodied by rowsDisplay — but only once
the earlier data.download_url_csv read has succeeded, which a 2xx body
parsing to null prevents. -/

/-- C7 counterexample: a 200 analyze response with body null parses
successfully and its rows field is non-numeric, yet the handler does not
render the em dash fallback: the download-url read throws and the error
panel is shown instead of the analysis HTML. -/
theorem C7_cex :
    JSON.parse "null" = some JsonVal.null ∧
    rowsDisplay JsonVal.null = "—" ∧
    (handleAnalyze sessionState 5 5 (FetchOutcome.response 200 "OK" "null")).analysisResult
      = showError (typeErrorMsg "download_url_csv") ∧
    (handleAnalyze sessionState 5 5 (FetchOutcome.response 200 "OK" "null")).analysisResult
      ≠ analysisCompleteHTML (rowsDisplay JsonVal.null) (analyzeLinks JsonVal.null 5 5) :=
  ⟨rfl, rfl, rfl, by decide⟩

/-- C7 (amended): for every successful analysis response whose parsed
body is not null the result panel renders rowsDisplay of the body,
which is the number itself when the rows field is a number and the em
dash fallback for every non-numeric or absent rows value; a body
parsing to null throws at the download-url read and the error panel is
rendered instead. -/
theorem C7_rows_display (st : ClientState) (n1 n2 : Nat) (o : FetchOutcome) (data : JsonVal)
    (hs : optFalsy st.uploadedFile = false) (h : fetchJSON o = FetchResult.ok data)
    (hnull : data ≠ JsonVal.null) :
    (handleAnalyze st n1 n2 o).analysisResult
      = analysisCompleteHTML (rowsDisplay data) (analyzeLinks data n1 n2) ∧
    (∀ m e : Int, data.get "rows" = some (JsonVal.num m e) → rowsDisplay data = numToStr m e) ∧
    (∀ v : JsonVal, data.get "rows" = some v → (∀ m e : Int, v ≠ JsonVal.num m e) →
      rowsDisplay data = "—") ∧
    (data.get "rows" = none → rowsDisplay data = "—") := by
  refine ⟨by simp [handleAnalyze, hs, h, jsGet_ne_null data "download_url_csv" hnull], ?_, ?_, ?_⟩
  · intro m e hrows
    simp [rowsDisplay, hrows]
  · intro v hrows hne
    cases v with
    | num m e => exact absurd rfl (hne m e)
    | str s => simp [rowsDisplay, hrows]
    | bool b => simp [rowsDisplay, hrows]
    | null => simp [rowsDisplay, hrows]
    | obj fs => simp [rowsDisplay, hrows]
    | arr xs => simp [rowsDisplay, hrows]
  · intro hrows
    simp [rowsDisplay, hrows]

/-- C7 witness: the spec scenario, rows being the string unknown renders
the em dash fallback. -/
theorem C7_rows_display_witness :
    (handleAnalyze sessionState 5 5 unknownRowsOutcome).analysisResult
      = analysisCompleteHTML (rowsDisplay unknownRowsData) (analyzeLinks unknownRowsData 5 5) ∧
    rowsDisplay unknownRowsData = "—" := by
  have h := C7_rows_display sessionState 5 5 unknownRowsOutcome unknownRowsData rfl rfl
    (fun hh => JsonVal.noConfusion hh)
  exact ⟨h.1, h.2.2.1 (JsonVal.str "unknown") rfl (fun m e hne => JsonVal.noConfusion hne)⟩

/-! C8.  MiniChat.send bails out before touching any state or issuing
any request when the trimmed input is empty. -/

/-- C8: sending with an input that trims to empty is a complete no-op:
the state is returned unchanged whatever the (never issued) network
outcome would have been. -/
theorem C8_blank_input_noop (st : ChatState) (o : FetchOutcome)
    (h : jsTrim st.input = "") : MiniChat.send st o = st := by
  simp [MiniChat.send, h]

/-- C8 witness: a whitespace-only input changes nothing. -/
theorem C8_blank_input_noop_witness :
    MiniChat.send { messages := [], input := "   ", disabled := false }
        (FetchOutcome.networkError "Failed to fetch")
      = { messages := [], input := "   ", disabled := false } :=
  C8_blank_input_noop { messages := [], input := "   ", disabled := false }
    (FetchOutcome.networkError "Failed to fetch") rfl

/-! C9.  Every branch of MiniChat.send extends the message list with
functional appends; nothing is removed or rewritten. -/

/-- C9: the MiniChat message list is append-only — for every state and
every outcome the new message list is the old one followed by some
suffix. -/
theorem C9_messages_append_only (st : ChatState) (o : FetchOutcome) :
    ∃ tail, (MiniChat.send st o).messages = st.messages ++ tail := by
  by_cases hq : jsTrim st.input = ""
  · exact ⟨[], by simp [MiniChat.send, hq]⟩
  · cases o with
    | networkError m =>
      exact ⟨[⟨"You", some (JsonVal.str (jsTrim st.input))⟩,
          ⟨"System", some (JsonVal.str "Error connecting to server")⟩],
        by simp [MiniChat.send, hq, List.append_assoc]⟩
    | response status statusText body =>
      by_cases h429 : status = 429
      · cases hp : JSON.parse body with
        | none =>
          exact ⟨[⟨"You", some (JsonVal.str (jsTrim st.input))⟩,
              ⟨"System", some (JsonVal.str "Error connecting to server")⟩],
            by simp [MiniChat.send, hq, h429, hp, List.append_assoc]⟩
        | some data =>
          exact ⟨[⟨"You", some (JsonVal.str (jsTrim st.input))⟩,
              ⟨"System", some (jsOrVal (data.get "detail") (JsonVal.str "Limit reached"))⟩],
            by simp [MiniChat.send, hq, h429, hp, List.append_assoc]⟩
      · cases hp : JSON.parse body with
        | none =>
          exact ⟨[⟨"You", some (JsonVal.str (jsTrim st.input))⟩,
              ⟨"System", some (JsonVal.str "Error connecting to server")⟩],
            by simp [MiniChat.send, hq, h429, hp, List.append_assoc]⟩
        | some data =>
          by_cases hrem : jsLeZeroVal (data.get "remaining")
          · exact ⟨[⟨"You", some (JsonVal.str (jsTrim st.input))⟩,
                ⟨"Bot", data.get "answer"⟩],
              by simp [MiniChat.send, hq, h429, hp, hrem, List.append_assoc]⟩
          · exact ⟨[⟨"You", some (JsonVal.str (jsTrim st.input))⟩,
                ⟨"Bot", data.get "answer"⟩],
              by simp [MiniChat.send, hq, h429, hp, hrem, List.append_assoc]⟩

/-! C10.  The success branch of the upload handler enables both action
buttons and rewrites both result panels to their Ready previews — but a
2xx body parsing to null throws at the filename read first and takes
the catch instead. -/

/-- C10 counterexample: a 200 upload response with body null parses
successfully, yet the handler leaves the AI-agent button disabled,
writes the error panel into the analysis pane, and does not touch the
AI pane — not the Ready previews. -/
theorem C10_cex :
    JSON.parse "null" = some JsonVal.null ∧
    (handleUpload sessionState true (FetchOutcome.response 200 "OK" "null")).aiAgentBtn.disabled
      = true ∧
    (handleUpload sessionState true (FetchOutcome.response 200 "OK" "null")).analysisResult
      = showError (typeErrorMsg "filename") ∧
    (handleUpload sessionState true (FetchOutcome.response 200 "OK" "null")).aiResult
      = sessionState.aiResult :=
  ⟨rfl, rfl, rfl, rfl⟩

/-- C10 (amended): every successful upload whose parsed body is not
null also enables the AI-agent action and resets both the analysis pane
and the AI pane to their Ready previews, discarding whatever they
showed before; a body parsing to null throws at the filename read and
is handled as an upload failure instead. -/
theorem C10_success_resets_previews (st : ClientState) (o : FetchOutcome)
    (data : JsonVal) (h : fetchJSON o = FetchResult.ok data)
    (hnull : data ≠ JsonVal.null) :
    (handleUpload st true o).aiAgentBtn.disabled = false ∧
    (handleUpload st true o).analyzeBtn.disabled = false ∧
    (handleUpload st true o).analysisResult
      = "<pre>Ready to analyze: " ++ jsDisplay (data.get "filename") ++ "</pre>" ∧
    (handleUpload st true o).aiResult
      = "<pre>Ready to run AI Agent on: " ++ jsDisplay (data.get "filename") ++ "</pre>" := by
  refine ⟨?_, ?_, ?_, ?_⟩ <;> simp [handleUpload, h, jsGet_ne_null data "filename" hnull]

/-- C10 witness: a successful upload of plan.pdf from a state whose
panes still show an earlier result. -/
theorem C10_success_resets_previews_witness :
    (handleUpload sessionState true uploadOkOutcome).aiAgentBtn.disabled = false ∧
    (handleUpload sessionState true uploadOkOutcome).analyzeBtn.disabled = false ∧
    (handleUpload sessionState true uploadOkOutcome).analysisResult
      = "<pre>Ready to analyze: "
          ++ jsDisplay ((JsonVal.obj [("filename", JsonVal.str "plan.pdf")]).get "filename")
          ++ "</pre>" ∧
    (handleUpload sessionState true uploadOkOutcome).aiResult
      = "<pre>Ready to run AI Agent on: "
          ++ jsDisplay ((JsonVal.obj [("filename", JsonVal.str "plan.pdf")]).get "filename")
          ++ "</pre>" :=
  C10_success_resets_previews sessionState uploadOkOutcome
    (JsonVal.obj [("filename", JsonVal.str "plan.pdf")]) rfl
    (fun hh => JsonVal.noConfusion hh)

end PlanLytics
